import Mathlib

/-!
Verification of the SoundStream Pro download manager (src/main.py).

The Lean definitions below are a shallow embedding of the program's core
logic: the job configuration model, the options builder
(`DownloadRunnable._build_ydl_opts`), the progress hook
(`DownloadRunnable._progress_hook`), the finalize/move step
(`DownloadRunnable._finalize_move`), the job lifecycle (`DownloadRunnable.run`
together with the signal connections made by `MainWindow._spawn_download` and
`MainWindow._cleanup_job`), the inspector-panel configuration delta
(`InspectorPanel.get_config_delta` / `set_metadata` / `_on_container_changed`)
and the metadata resolution post-processing (`YtDlpService.extract_info`).
-/

namespace YTGUI

/-- Embeds the `MediaType` enum of src/main.py (AUDIO / VIDEO). -/
inductive MediaType where
  | audio
  | video
deriving DecidableEq, Repr

/-- Embeds the frozen dataclass `DownloadJobConfig` of src/main.py.
`output_path` is kept as a plain string (paths are never inspected by the
core logic, only concatenated). -/
structure DownloadJobConfig where
  job_id : String
  url : String
  output_path : String
  custom_filename : String
  media_type : MediaType
  format_container : String
  audio_codec : String
  video_codec : String
  quality_preset : String
  audio_sample_rate : Int
  audio_bitrate : String
  meta_title : String
  meta_artist : String
  meta_album : String
  meta_genre : String
  meta_date : String
  meta_desc : String
  embed_metadata : Bool
  embed_thumbnail : Bool
  embed_subs : Bool
  normalize_audio : Bool
  use_browser_cookies : Bool
deriving DecidableEq, Repr

/-- The fields of a yt-dlp info dict that `_progress_hook` and
`AnalysisRunnable` read or write. -/
structure InfoDict where
  title : String
  artist : String
  album : String
  genre : String
  description : String
  comment : String
  upload_date : String
deriving DecidableEq, Repr

/-- The Python exceptions that the embedded fragments can raise. -/
inductive PyError where
  | fileNotFound
  | indexError
  | downloadErr
deriving DecidableEq, Repr

/-! ## YtDlpService.extract_info (src/main.py lines 186-201)

After the raw extraction, the code runs
`if 'entries' in info: info = info['entries'][0]`.  `RawInfo` models the raw
result: `entries` is `some l` when the `'entries'` key is present (a playlist
resolved to the list `l` of per-entry info dicts) and `none` otherwise;
`top` holds the top-level info dict fields. -/
structure RawInfo where
  entries : Option (List InfoDict)
  top : InfoDict
deriving DecidableEq, Repr

/-- Embeds the playlist-selection step of `YtDlpService.extract_info`:
`info['entries'][0]` raises `IndexError` when the entries list is empty. -/
def extract_info_select (raw : RawInfo) : Except PyError InfoDict :=
  match raw.entries with
  | some (e :: _) => Except.ok e
  | some [] => Except.error PyError.indexError
  | none => Except.ok raw.top

/-! ## InspectorPanel (src/main.py lines 609-689) -/

/-- Embeds `re.sub(r'[\\/*?:"<>|]', "", meta.title)` from
`InspectorPanel.set_metadata` (line 611): every character of the forbidden
class is removed. -/
def sanitize_filename (title : String) : String :=
  String.mk (title.toList.filter (fun ch => !("\\/*?:\"<>|".toList.contains ch)))

/-- Embeds Python's `str.strip()` (no argument): removes leading and
trailing whitespace characters. -/
def py_strip (s : String) : String :=
  String.mk
    (((s.toList.dropWhile Char.isWhitespace).reverse.dropWhile
        Char.isWhitespace).reverse)

/-- Embeds the filename entry of `InspectorPanel.get_config_delta`
(line 677): `self.in_filename.text().strip() or "output"` - the stripped
text when non-empty, otherwise the literal string "output". -/
def effective_custom_filename (text : String) : String :=
  if py_strip text = "" then "output" else py_strip text

/-- Embeds `is_lossless = fmt in ['flac', 'wav']` from
`InspectorPanel._on_container_changed` (line 650). -/
def is_lossless (fmt : String) : Bool :=
  fmt == "flac" || fmt == "wav"

/-- Embeds the bitrate entry of `InspectorPanel.get_config_delta`
(line 675): `self.cb_abitrate.currentData() if self.cb_abitrate.isEnabled()
else "0"`, where `_on_container_changed` (line 651) enables the bitrate box
exactly when the container is not lossless.  `selected` is the combo box's
current data value. -/
def ui_audio_bitrate (container : String) (selected : String) : String :=
  if is_lossless container then "0" else selected

/-! ## DownloadRunnable._progress_hook, metadata injection
(src/main.py lines 286-302) -/

/-- Embeds `clean_date = self.config.meta_date.replace('-','').replace('/','')`
followed by `if len(clean_date) == 4: clean_date += "0101"` (lines 300-301). -/
def clean_meta_date (s : String) : String :=
  let c := String.mk (s.toList.filter (fun ch => !("-/".toList.contains ch)))
  if c.length = 4 then c ++ "0101" else c

/-- Embeds the in-memory info-dict mutation performed by `_progress_hook` on
a `finished` event (lines 287-302): each non-empty override field replaces
the source-derived value; the date is normalized by `clean_meta_date`; the
whole block is skipped unless `embed_metadata` is set. -/
def inject_metadata (cfg : DownloadJobConfig) (info : InfoDict) : InfoDict :=
  if cfg.embed_metadata then
    { title := if cfg.meta_title ≠ "" then cfg.meta_title else info.title
      artist := if cfg.meta_artist ≠ "" then cfg.meta_artist else info.artist
      album := if cfg.meta_album ≠ "" then cfg.meta_album else info.album
      genre := if cfg.meta_genre ≠ "" then cfg.meta_genre else info.genre
      description := if cfg.meta_desc ≠ "" then cfg.meta_desc else info.description
      comment := if cfg.meta_desc ≠ "" then cfg.meta_desc else info.comment
      upload_date :=
        if cfg.meta_date ≠ "" then clean_meta_date cfg.meta_date
        else info.upload_date }
  else info

/-! ## DownloadRunnable._build_ydl_opts (src/main.py lines 307-378)

The builder is a pure map from the job configuration to the declarative
yt-dlp option set.  `YdlOpts` keeps the entries the claims are about. -/

/-- The `FFmpegExtractAudio` post-processor entry appended for audio jobs
(lines 340-344): `preferredquality` is `self.config.audio_bitrate if
self.config.audio_bitrate != '0' else None`. -/
structure AudioExtractPP where
  preferredcodec : String
  preferredquality : Option String
deriving DecidableEq, Repr

/-- Embeds the quality entry of the audio extraction post-processor
(line 343): the bitrate string unless it is exactly "0", in which case
`None`. -/
def audio_quality (bitrate : String) : Option String :=
  if bitrate ≠ "0" then some bitrate else none

/-- Embeds `res_map = {"4K": 2160, "2K": 1440, "1080p": 1080, "720p": 720,
"480p": 480}` and `res_map.get(self.config.quality_preset)` (lines 355-356). -/
def res_map (p : String) : Option Nat :=
  if p = "4K" then some 2160
  else if p = "2K" then some 1440
  else if p = "1080p" then some 1080
  else if p = "720p" then some 720
  else if p = "480p" then some 480
  else none

/-- Embeds `res_filter = f"[height<={target_h}]" if target_h else ""`
(line 357); `res_map` never yields 0, so Python truthiness of `target_h`
coincides with the option being `some`. -/
def res_filter (preset : String) : String :=
  match res_map preset with
  | some h => "[height<=" ++ toString h ++ "]"
  | none => ""

/-- Embeds `v_codec_map = {'h264': 'avc', 'vp9': 'vp9', 'av1': 'av01'}` with
`v_codec_map.get(self.config.video_codec, self.config.video_codec)`
(lines 361-362). -/
def v_codec_map (c : String) : String :=
  if c = "h264" then "avc"
  else if c = "vp9" then "vp9"
  else if c = "av1" then "av01"
  else c

/-- Embeds the video format-expression construction (lines 354-369):
`f"{v_fmt}+{a_fmt}/best{res_filter}"` where `v_fmt` is `bestvideo` plus the
height filter plus an optional vcodec filter, and `a_fmt` is `bestaudio`
plus an optional acodec filter. -/
def video_format (quality_preset video_codec audio_codec : String) : String :=
  let rf := res_filter quality_preset
  let v_fmt := "bestvideo" ++ rf ++
    (if video_codec ≠ "best" then "[vcodec^=" ++ v_codec_map video_codec ++ "]"
     else "")
  let a_fmt :=
    if audio_codec ≠ "best" then "bestaudio[acodec^=" ++ audio_codec ++ "]"
    else "bestaudio"
  v_fmt ++ "+" ++ a_fmt ++ "/best" ++ rf

/-- The option entries produced by `_build_ydl_opts` that the verified
claims are about. -/
structure YdlOpts where
  format : String
  audio_pp : Option AudioExtractPP
  extract_audio_args : List String
  merge_output_format : Option String
  has_metadata_pp : Bool
  has_thumbnail_pp : Bool
  writethumbnail : Bool
  addmetadata : Bool
  writesubtitles : Bool
deriving DecidableEq, Repr

/-- Embeds `DownloadRunnable._build_ydl_opts` (lines 307-378): audio jobs
request `bestaudio/best` and append the `FFmpegExtractAudio` post-processor
with the codec set to the container and the quality per `audio_quality`,
plus optional `-ar` and loudnorm post-processor arguments; video jobs
request the `video_format` expression and set the merge container. -/
def build_ydl_opts (cfg : DownloadJobConfig) : YdlOpts :=
  match cfg.media_type with
  | MediaType.audio =>
      { format := "bestaudio/best"
        audio_pp := some
          { preferredcodec := cfg.format_container
            preferredquality := audio_quality cfg.audio_bitrate }
        extract_audio_args :=
          (if cfg.audio_sample_rate > 0 then
            ["-ar", toString cfg.audio_sample_rate] else [])
          ++ (if cfg.normalize_audio then
            ["-af", "loudnorm=I=-14:TP=-1.5:LRA=11"] else [])
        merge_output_format := none
        has_metadata_pp := cfg.embed_metadata
        has_thumbnail_pp := cfg.embed_thumbnail
        writethumbnail := cfg.embed_thumbnail
        addmetadata := cfg.embed_metadata
        writesubtitles := cfg.embed_subs }
  | MediaType.video =>
      { format := video_format cfg.quality_preset cfg.video_codec cfg.audio_codec
        audio_pp := none
        extract_audio_args := []
        merge_output_format := some cfg.format_container
        has_metadata_pp := cfg.embed_metadata
        has_thumbnail_pp := cfg.embed_thumbnail
        writethumbnail := cfg.embed_thumbnail
        addmetadata := cfg.embed_metadata
        writesubtitles := cfg.embed_subs }

/-- Substring containment, used to state what the generated stream-selection
expression contains. -/
abbrev strHasSub (pat s : String) : Prop :=
  List.IsInfix pat.toList s.toList

/-! ## Concrete configurations used by the theorems below -/

/-- A baseline audio job configuration (concrete values for fields the
individual theorems do not vary). -/
def base_cfg : DownloadJobConfig where
  job_id := "7b0d"
  url := "https://youtu.be/x"
  output_path := "/home/u/Downloads"
  custom_filename := "out"
  media_type := MediaType.audio
  format_container := "mp3"
  audio_codec := "best"
  video_codec := "best"
  quality_preset := "Best Available"
  audio_sample_rate := 0
  audio_bitrate := "192"
  meta_title := ""
  meta_artist := ""
  meta_album := ""
  meta_genre := ""
  meta_date := ""
  meta_desc := ""
  embed_metadata := true
  embed_thumbnail := true
  embed_subs := false
  normalize_audio := false
  use_browser_cookies := false

/-- Audio job with lossless container flac and an explicit bitrate "192". -/
def cfg_flac_192 : DownloadJobConfig :=
  { base_cfg with format_container := "flac", audio_bitrate := "192" }

/-- Audio job with lossless container flac and the empty-string bitrate. -/
def cfg_flac_empty : DownloadJobConfig :=
  { base_cfg with format_container := "flac", audio_bitrate := "" }

/-- Audio job with lossless container flac and the "0" bitrate sentinel, as
the inspector panel produces it (the bitrate box is disabled for lossless
containers). -/
def cfg_flac_ui : DownloadJobConfig :=
  { base_cfg with format_container := "flac", audio_bitrate := "0" }

/-- Video job with the "1080p" quality preset. -/
def cfg_video_1080 : DownloadJobConfig :=
  { base_cfg with
      media_type := MediaType.video
      format_container := "mp4"
      quality_preset := "1080p" }

/-- The video codec choices offered by `cb_vcodec` (line 515), lowercased by
`get_config_delta` (line 672). -/
def ui_video_codecs : List String :=
  ["best", "h264", "vp9", "av1"]

/-- The audio codec choices offered by `cb_acodec` (line 518), lowercased by
`get_config_delta` (line 673). -/
def ui_audio_codecs : List String :=
  ["best", "aac", "mp3", "opus"]

/-- Audio job requesting a date override of "2019". -/
def cfg_date_2019 : DownloadJobConfig :=
  { base_cfg with meta_date := "2019" }

/-- Audio job with an empty date override field. -/
def cfg_date_empty : DownloadJobConfig :=
  { base_cfg with meta_date := "" }

/-- A sample source-derived info dict with a known upload date. -/
def info_sample : InfoDict where
  title := "Track Title"
  artist := "Artist"
  album := "Album"
  genre := "Genre"
  description := "Desc"
  comment := "Cmt"
  upload_date := "20200215"

/-- A sample first playlist entry. -/
def info_entry : InfoDict where
  title := "First Entry"
  artist := ""
  album := ""
  genre := ""
  description := ""
  comment := ""
  upload_date := ""

/-! ## Claims C7, C8, C10 -/

/-- C7: Date normalization in the metadata-override step maps "2019" to
"20190101" (4-digit year padded with "0101"), maps "2019-05-03" to
"20190503" (separators removed), and an empty date field leaves the
source-derived upload date untouched. -/
theorem C7_date_normalization :
    clean_meta_date "2019" = "20190101"
    ∧ clean_meta_date "2019-05-03" = "20190503"
    ∧ (inject_metadata cfg_date_2019 info_sample).upload_date = "20190101"
    ∧ (inject_metadata cfg_date_empty info_sample).upload_date = "20200215" := by
  refine ⟨rfl, rfl, rfl, rfl⟩

/-- C8 counterexample: with the filename input cleared (empty text) the
effective base name computed by `get_config_delta` is the constant "output",
which differs from the (sanitized) source title "My Song" - refuting the
claim that an empty customFilename falls back to the source-derived title. -/
theorem C8_empty_filename_fallback_counterexample :
    effective_custom_filename "" = "output"
    ∧ sanitize_filename "My Song" = "My Song"
    ∧ (("output" : String) == "My Song") = false := by
  refine ⟨rfl, rfl, rfl⟩

/-- C8 amended: a filename field that is empty after stripping falls back to
the constant "output", not to the title; the source title only enters as the
pre-filled field value written by `set_metadata` (the sanitized title), and
when that pre-fill is left untouched and strips to a non-empty string the
effective base name is precisely the stripped sanitized title. -/
theorem C8_amended_output_fallback :
    (∀ s : String, py_strip s = "" → effective_custom_filename s = "output")
    ∧ (∀ t : String, py_strip (sanitize_filename t) ≠ "" →
        effective_custom_filename (sanitize_filename t)
          = py_strip (sanitize_filename t)) := by
  constructor
  · intro s hs
    unfold effective_custom_filename
    rw [hs]
    rfl
  · intro t ht
    unfold effective_custom_filename
    rw [if_neg ht]

/-- C8 amended, witness: concrete evaluations of both branches. -/
theorem C8_amended_witness :
    effective_custom_filename " " = "output"
    ∧ effective_custom_filename (sanitize_filename "My: Song") = "My Song" := by
  refine ⟨C8_amended_output_fallback.1 " " rfl, ?_⟩
  have h := C8_amended_output_fallback.2 "My: Song" (by decide)
  rw [h]
  rfl

/-- C10 counterexample: a resolved playlist whose `'entries'` key holds an
empty list (the key is present, so the metadata is a playlist) makes
`extract_info` raise `IndexError` at `info['entries'][0]` instead of
returning a first entry - refuting the claim for every playlist. -/
theorem C10_empty_playlist_counterexample :
    extract_info_select { entries := some [], top := info_sample }
      = Except.error PyError.indexError := rfl

/-- C10 amended: for every URL whose resolved metadata is a playlist with at
least one entry, `extract_info` returns the metadata of the first entry
only; an empty entries list instead raises `IndexError`. -/
theorem C10_amended_first_entry (raw : RawInfo) (e : InfoDict)
    (rest : List InfoDict) (h : raw.entries = some (e :: rest)) :
    extract_info_select raw = Except.ok e := by
  unfold extract_info_select
  rw [h]

/-- C10 amended, witness: a one-entry playlist resolves to its first entry. -/
theorem C10_amended_witness :
    extract_info_select { entries := some [info_entry], top := info_sample }
      = Except.ok info_entry :=
  C10_amended_first_entry { entries := some [info_entry], top := info_sample }
    info_entry [] rfl

/-! ## Claim C1 -/

/-- C1 counterexample: the builder keys the quality hint only on the literal
"0" sentinel, not on the container.  A flac (lossless) audio config with
bitrate "192" gets `preferredquality = "192"` on the extraction step, and
the empty-string bitrate yields `preferredquality = ""` rather than omitting
the hint - refuting the claim that lossless configs never carry a bitrate
hint regardless of `bitrateKbps`. -/
theorem C1_lossless_bitrate_counterexample :
    is_lossless cfg_flac_192.format_container = true
    ∧ (build_ydl_opts cfg_flac_192).audio_pp
        = some { preferredcodec := "flac", preferredquality := some "192" }
    ∧ (build_ydl_opts cfg_flac_empty).audio_pp
        = some { preferredcodec := "flac", preferredquality := some "" } := by
  refine ⟨rfl, rfl, rfl⟩

/-- C1 amended: the builder omits the bitrate-quality hint exactly when
`bitrateKbps` is the literal "0" sentinel (the empty string does not omit
it); since the inspector panel forces the bitrate to "0" whenever the
container is lossless (the bitrate box is disabled), every audio config
whose bitrate field came from the UI bitrate logic with a lossless container
carries no quality hint on the extraction step. -/
theorem C1_amended_lossless_zero_sentinel :
    (∀ b : String, audio_quality b = none ↔ b = "0")
    ∧ (∀ (cfg : DownloadJobConfig) (selected : String),
        cfg.media_type = MediaType.audio →
        is_lossless cfg.format_container = true →
        cfg.audio_bitrate = ui_audio_bitrate cfg.format_container selected →
        (build_ydl_opts cfg).audio_pp
          = some { preferredcodec := cfg.format_container,
                   preferredquality := none }) := by
  constructor
  · intro b
    unfold audio_quality
    split_ifs with h
    · simp [h]
    · have hb := not_not.mp h
      simp [hb]
  · intro cfg selected hm hl hb
    have hz : cfg.audio_bitrate = "0" := by
      rw [hb]
      unfold ui_audio_bitrate
      rw [hl]
      rfl
    unfold build_ydl_opts
    rw [hm]
    have hq : audio_quality cfg.audio_bitrate = none := by
      rw [hz]
      decide
    rw [hq]

/-- C1 amended, witness: the flac config produced by the UI (bitrate "0")
gets an extraction step with no quality hint. -/
theorem C1_amended_witness :
    (build_ydl_opts cfg_flac_ui).audio_pp
      = some { preferredcodec := "flac", preferredquality := none } :=
  C1_amended_lossless_zero_sentinel.2 cfg_flac_ui "192" rfl rfl rfl

/-! ## Claim C6 -/

/-- Helper for C6: when the preset maps to a height, the generated
expression contains the corresponding height-ceiling filter (the filter
string is a literal segment of the expression, between "bestvideo" and the
codec filters). -/
theorem vf_height_pos (p v a : String) (h : Nat)
    (hmap : res_map p = some h) :
    strHasSub ("[height<=" ++ toString h ++ "]") (video_format p v a) := by
  have hrf : res_filter p = "[height<=" ++ toString h ++ "]" := by
    unfold res_filter
    rw [hmap]
  refine ⟨"bestvideo".toList,
    ((if v ≠ "best" then "[vcodec^=" ++ v_codec_map v ++ "]" else "")
      ++ "+"
      ++ (if a ≠ "best" then "bestaudio[acodec^=" ++ a ++ "]" else "bestaudio")
      ++ "/best" ++ res_filter p).toList, ?_⟩
  simp only [video_format]
  rw [hrf]
  simp [String.toList, String.data_append, List.append_assoc]

/-- Helper for C6: when the preset does not map to a height (and the codec
fields hold UI choices), the generated expression contains no height-ceiling
filter at all. -/
theorem vf_height_neg (p v a : String) (hmap : res_map p = none)
    (hv : v ∈ ui_video_codecs) (ha : a ∈ ui_audio_codecs) :
    ¬ strHasSub "[height<=" (video_format p v a) := by
  have hrf : res_filter p = "" := by
    unfold res_filter
    rw [hmap]
  fin_cases hv <;> fin_cases ha <;>
    (simp only [video_format, hrf]; decide)

/-- C6: for every video JobConfig (codec fields drawn from the UI codec
lists), the generated stream-selection format expression contains the
height-ceiling filter for the mapped height whenever `qualityPreset` is in
the fixed map {4K:2160, 2K:1440, 1080p:1080, 720p:720, 480p:480}, and
contains no height-ceiling filter whenever the preset is unmapped
("Best Available" included). -/
theorem C6_height_ceiling_iff (cfg : DownloadJobConfig)
    (hm : cfg.media_type = MediaType.video)
    (hv : cfg.video_codec ∈ ui_video_codecs)
    (ha : cfg.audio_codec ∈ ui_audio_codecs) :
    (∀ h : Nat, res_map cfg.quality_preset = some h →
        strHasSub ("[height<=" ++ toString h ++ "]") (build_ydl_opts cfg).format)
    ∧ (res_map cfg.quality_preset = none →
        ¬ strHasSub "[height<=" (build_ydl_opts cfg).format) := by
  have hfmt : (build_ydl_opts cfg).format
      = video_format cfg.quality_preset cfg.video_codec cfg.audio_codec := by
    unfold build_ydl_opts
    rw [hm]
  rw [hfmt]
  exact ⟨fun h hmap => vf_height_pos _ _ _ h hmap,
    fun hnone => vf_height_neg _ _ _ hnone hv ha⟩

/-- C6, witness: the "1080p" video config's expression contains the
"[height<=1080]" filter. -/
theorem C6_height_ceiling_witness :
    strHasSub ("[height<=" ++ toString 1080 ++ "]")
      (build_ydl_opts cfg_video_1080).format :=
  (C6_height_ceiling_iff cfg_video_1080 rfl (by decide) (by decide)).1
    1080 (by decide)

/-! ## DownloadRunnable._finalize_move, run and the scheduler hookup
(src/main.py lines 380-412, 866-874, 919-938)

The filesystem fragment the job touches is its per-job temp directory and
the destination directory.  `tempEntries` are the entries of the temp
directory, each tagged with `is_file`; `destFiles` are the names present in
the destination directory. -/
structure FS where
  tempExists : Bool
  tempEntries : List (String × Bool)
  destFiles : List String
deriving DecidableEq, Repr

/-- Moving a file into the destination with the overwrite-on-collision
policy of `_finalize_move` (lines 386-390): a same-named file is unlinked
first, so by name the destination afterwards contains the name exactly
once. -/
def move_into (dest : List String) (name : String) : List String :=
  if dest.contains name then dest else dest ++ [name]

/-- Embeds `shutil.rmtree(self._temp_dir, ignore_errors=True)`: removes the
temp directory and everything in it; a missing directory is not an error. -/
def rmtree_temp (fs : FS) : FS :=
  { fs with tempExists := false, tempEntries := [] }

/-- Embeds `DownloadRunnable._finalize_move` (lines 380-391): iterate over
the temp directory (raising `FileNotFoundError` when it does not exist,
as `Path.iterdir` does), move every regular file into the destination with
overwrite, then remove the temp directory. -/
def finalize_move (fs : FS) : Except PyError FS :=
  if fs.tempExists then
    Except.ok
      { tempExists := false
        tempEntries := []
        destFiles :=
          ((fs.tempEntries.filter (fun e => e.2)).map (fun e => e.1)).foldl
            move_into fs.destFiles }
  else Except.error PyError.fileNotFound

/-- Abstract outcome of the blocking `ydl.download([url])` call: it either
returns normally or raises (for example the `DownloadError` that
`_progress_hook` raises when the cancel flag is set, or a network error). -/
inductive DlOutcome where
  | success
  | raised
deriving DecidableEq, Repr

/-- The externally observable result of one `DownloadRunnable.run`: the
`status` signals emitted in order, whether the `finished` signal and the
`error` signal were emitted, and the final filesystem state. -/
structure RunResult where
  statuses : List String
  emittedFinished : Bool
  emittedError : Bool
  fs : FS
deriving DecidableEq, Repr

/-- The `except` branch of `run` (lines 406-412): remove the temp directory,
then report status "Cancelled" when the cancel flag is set, otherwise emit
the `error` signal. -/
def except_path (fs : FS) (cancelAtHandler : Bool) (sts : List String) :
    RunResult :=
  let fs' := rmtree_temp fs
  if cancelAtHandler then
    { statuses := sts ++ ["Cancelled"]
      emittedFinished := false
      emittedError := false
      fs := fs' }
  else
    { statuses := sts
      emittedFinished := false
      emittedError := true
      fs := fs' }

/-- Embeds `DownloadRunnable.run` (lines 393-412).  `_build_ydl_opts`
creates the temp directory; the download adds `dlFiles` to it and either
returns or raises (`dl`); after a successful download the cancel flag is
checked (`cancelAtCheck` is its value at line 402) and, when clear,
`_finalize_move` publishes the files, status "Complete" is reported and the
`finished` signal emitted.  Every exception lands in `except_path`, which
reads the flag again (`cancelAtHandler`). The flag is only ever set, never
cleared, so a flag already set before the Downloading phase has both
`cancelAtCheck` and `cancelAtHandler` true. -/
def run_job (fs0 : FS) (dlFiles : List (String × Bool)) (dl : DlOutcome)
    (cancelAtCheck cancelAtHandler : Bool) : RunResult :=
  let fs1 : FS := { fs0 with tempExists := true }
  let fs2 : FS := { fs1 with tempEntries := fs1.tempEntries ++ dlFiles }
  let sts := ["Initializing...", "Downloading..."]
  match dl with
  | DlOutcome.raised => except_path fs2 cancelAtHandler sts
  | DlOutcome.success =>
      if cancelAtCheck then except_path fs2 cancelAtHandler sts
      else
        match finalize_move fs2 with
        | Except.ok fs3 =>
            { statuses := sts ++ ["Complete"]
              emittedFinished := true
              emittedError := false
              fs := fs3 }
        | Except.error _ => except_path fs2 cancelAtHandler sts

/-- How many times `MainWindow._cleanup_job` runs for a job with the given
run result: `_spawn_download` (lines 866-874) connects the `finished` signal
to `on_job_finished` and the `error` signal to `on_job_error`, and those two
slots (lines 919-923) are the only callers of `_cleanup_job`, which contains
the only `del self.active_runnables[job_id]` (line 938). -/
def cleanup_calls (r : RunResult) : Nat :=
  (if r.emittedFinished then 1 else 0) + (if r.emittedError then 1 else 0)

/-- An initially clean filesystem state. -/
def fs_clean : FS where
  tempExists := false
  tempEntries := []
  destFiles := []

/-! ## Claims C2, C3, C4, C9 -/

/-- C2: for every job whose cancel flag is set before the Downloading phase
begins (both the post-download check and the exception handler read the flag
as true, the flag being set-only), `run` terminates with the "Cancelled"
status as its final report - regardless of whether the download call raises
or returns - and emits neither the `finished` signal ("Complete" is never
reported) nor the `error` signal. -/
theorem C2_cancel_before_download_terminates_cancelled
    (fs0 : FS) (dlFiles : List (String × Bool)) (dl : DlOutcome) :
    (run_job fs0 dlFiles dl true true).statuses
        = ["Initializing...", "Downloading...", "Cancelled"]
    ∧ (run_job fs0 dlFiles dl true true).emittedFinished = false
    ∧ (run_job fs0 dlFiles dl true true).emittedError = false := by
  cases dl <;> exact ⟨rfl, rfl, rfl⟩

/-- C3 (code bug witness): a job that is cancelled (the cancel flag is set
and the download raises the hook's `DownloadError`) reaches the "Cancelled"
terminal status but emits neither `finished` nor `error`, so
`MainWindow._cleanup_job` runs zero times and the `active_runnables` entry
is never removed - while Completed and Failed jobs are each cleaned up
exactly once. -/
theorem C3_cancelled_job_registry_leak :
    (run_job fs_clean [] DlOutcome.raised true true).statuses
        = ["Initializing...", "Downloading...", "Cancelled"]
    ∧ cleanup_calls (run_job fs_clean [] DlOutcome.raised true true) = 0
    ∧ cleanup_calls (run_job fs_clean [] DlOutcome.success false false) = 1
    ∧ cleanup_calls (run_job fs_clean [] DlOutcome.raised false false) = 1 := by
  refine ⟨rfl, rfl, rfl, rfl⟩

/-- C4 counterexample: the state left behind by a previous successful
finalize has the temp directory removed (not merely empty), and running
`_finalize_move` again from that state raises `FileNotFoundError` at
`self._temp_dir.iterdir()` - refuting the claim that a second finalize never
raises. -/
theorem C4_second_finalize_raises :
    finalize_move
        { tempExists := true
          tempEntries := [("song.mp3", true)]
          destFiles := [] }
      = Except.ok
        { tempExists := false, tempEntries := [], destFiles := ["song.mp3"] }
    ∧ finalize_move
        { tempExists := false, tempEntries := [], destFiles := ["song.mp3"] }
      = Except.error PyError.fileNotFound := by
  refine ⟨rfl, rfl⟩

/-- C4 amended: on a temp directory that still exists but is empty,
`_finalize_move` is a no-op at the destination and does not raise (it only
removes the now-useless temp directory); but after a successful finalize the
temp directory itself is gone, and a second invocation raises
`FileNotFoundError`. -/
theorem C4_amended_finalize_empty_tempdir_noop (dest : List String) :
    finalize_move { tempExists := true, tempEntries := [], destFiles := dest }
        = Except.ok { tempExists := false, tempEntries := [], destFiles := dest }
    ∧ finalize_move { tempExists := false, tempEntries := [], destFiles := dest }
        = Except.error PyError.fileNotFound := by
  refine ⟨rfl, rfl⟩

/-- C9: when the download pipeline succeeds but the cancel flag is found set
at the pre-finalize checkpoint (line 402), `run` raises internally, removes
the temp directory, reports the "Cancelled" terminal status, and never moves
any file into the destination: the destination directory is exactly what it
was before the job ran. -/
theorem C9_cancel_before_finalize_preserves_destination
    (fs0 : FS) (dlFiles : List (String × Bool)) :
    (run_job fs0 dlFiles DlOutcome.success true true).fs.destFiles
        = fs0.destFiles
    ∧ (run_job fs0 dlFiles DlOutcome.success true true).fs.tempExists = false
    ∧ (run_job fs0 dlFiles DlOutcome.success true true).fs.tempEntries
        = ([] : List (String × Bool))
    ∧ (run_job fs0 dlFiles DlOutcome.success true true).statuses
        = ["Initializing...", "Downloading...", "Cancelled"]
    ∧ (run_job fs0 dlFiles DlOutcome.success true true).emittedFinished
        = false := by
  refine ⟨rfl, rfl, rfl, rfl, rfl⟩

/-! ## DownloadRunnable._progress_hook, event emission
(src/main.py lines 266-305)

A raw hook payload is the dict `d` that yt-dlp passes to the hook.  For a
`downloading` payload the code parses `d['_percent_str']` with `float`;
`percent` below is the result of that parse (`none` when `float` raised
`ValueError`, in which case the code substitutes 0.0).  Percent values are
modelled as rationals. -/
inductive RawEvent where
  | downloading (percent : Option ℚ) (speed : String)
  | finished
  | other
deriving DecidableEq, Repr

/-- A signal emitted by the hook: either a `progress` signal (percent and
speed label) or a `status` signal. -/
inductive ProgSignal where
  | progress (percent : ℚ) (speed : String)
  | statusSig (msg : String)
deriving DecidableEq, Repr

/-- The signals one `_progress_hook` invocation emits (lines 275-305): a
`downloading` payload forwards the parsed percent (0.0 on parse failure)
with the speed string; a `finished` payload emits the forced
`(100.0, "Processing")` progress signal followed by the "Post-processing..."
status signal; any other payload emits nothing. -/
def hook_signal_events : RawEvent → List ProgSignal
  | RawEvent.downloading p s => [ProgSignal.progress (p.getD 0) s]
  | RawEvent.finished =>
      [ProgSignal.progress 100 "Processing",
       ProgSignal.statusSig "Post-processing..."]
  | RawEvent.other => []

/-- The signal stream produced over a whole sequence of hook invocations:
when the cancel flag is set the very first invocation raises `DownloadError`
(line 272-273) and nothing is emitted; otherwise each payload's signals are
emitted in order. -/
def run_hook_stream (cancelled : Bool) (raws : List RawEvent) :
    List ProgSignal :=
  if cancelled then [] else raws.flatMap hook_signal_events

/-- The percent carried by a progress signal, if any. -/
def sig_percent : ProgSignal → Option ℚ
  | ProgSignal.progress p _ => some p
  | ProgSignal.statusSig _ => none

/-- The sequence of percents of the emitted progress signals. -/
def progress_percents (sigs : List ProgSignal) : List ℚ :=
  sigs.filterMap sig_percent

/-- The percent a raw payload would be reported with, if it is a
`downloading` payload. -/
def raw_percent : RawEvent → Option ℚ
  | RawEvent.downloading p _ => some (p.getD 0)
  | _ => none

/-- The percents of the `downloading` payloads of a raw sequence. -/
def raw_down_percents (raws : List RawEvent) : List ℚ :=
  raws.filterMap raw_percent

/-- A raw hook sequence whose reported percent decreases (as happens when
one job downloads several streams in sequence and the percent restarts). -/
def raws_resetting : List RawEvent :=
  [RawEvent.downloading (some 50) "1.0MiB/s",
   RawEvent.downloading (some 30) "1.0MiB/s"]

/-- A raw hook sequence in which a `finished` payload is followed by a
further `downloading` payload (next stream of the same job). -/
def raws_finished_midway : List RawEvent :=
  [RawEvent.finished, RawEvent.downloading (some 10) "1.0MiB/s"]

/-! ## Claim C5 -/

/-- C5 counterexample: the hook forwards the extractor's raw percents
unchanged, so a raw stream whose percent resets yields emitted progress
events with decreasing percents (50 then 30), and a `finished` payload
followed by another `downloading` payload yields a progress event after the
forced 100% event - refuting both the non-decreasing-percent claim and the
finished-event-is-last claim. -/
theorem C5_passthrough_counterexample :
    progress_percents (run_hook_stream false raws_resetting) = [(50 : ℚ), 30]
    ∧ (30 : ℚ) < 50
    ∧ progress_percents (run_hook_stream false raws_finished_midway)
        = [(100 : ℚ), 10]
    ∧ (10 : ℚ) < 100 := by
  refine ⟨rfl, by norm_num, rfl, by norm_num⟩

/-- Helper for C5: over a raw sequence with no `finished` payload, the
emitted progress percents are exactly the raw downloading percents. -/
theorem progress_percents_no_finished (raws : List RawEvent)
    (h : RawEvent.finished ∉ raws) :
    progress_percents (raws.flatMap hook_signal_events)
      = raw_down_percents raws := by
  induction raws with
  | nil => rfl
  | cons r l ih =>
      have hr : r ≠ RawEvent.finished := fun e => h (e ▸ List.mem_cons_self r l)
      have hl : RawEvent.finished ∉ l := fun m => h (List.mem_cons_of_mem r m)
      cases r with
      | downloading p s =>
          simp only [List.flatMap_cons, progress_percents, raw_down_percents,
            hook_signal_events, List.filterMap_append, List.filterMap_cons,
            List.filterMap_nil, List.nil_append, List.singleton_append,
            sig_percent, raw_percent] at *
          rw [ih hl]
      | finished => exact absurd rfl hr
      | other =>
          simp only [List.flatMap_cons, progress_percents, raw_down_percents,
            hook_signal_events, List.filterMap_append, List.filterMap_cons,
            sig_percent, raw_percent, List.nil_append] at *
          rw [ih hl]

/-- C5 amended: the hook performs no reordering or clamping - it forwards
the raw downloading percents unchanged and appends a forced 100% event for
the terminal `finished` payload.  Consequently, whenever the raw extractor
stream itself has non-decreasing downloading percents, all of them at most
100, and its single `finished` payload last, the emitted progress events
have non-decreasing percents and the finished-induced 100% event is the last
progress event. -/
theorem C5_amended_monotone_passthrough (body : List RawEvent)
    (h1 : List.Chain' (fun x y => x ≤ y) (raw_down_percents body))
    (h2 : ∀ q ∈ raw_down_percents body, q ≤ (100 : ℚ))
    (h3 : RawEvent.finished ∉ body) :
    progress_percents (run_hook_stream false (body ++ [RawEvent.finished]))
        = raw_down_percents body ++ [100]
    ∧ List.Chain' (fun x y => x ≤ y)
        (progress_percents
          (run_hook_stream false (body ++ [RawEvent.finished]))) := by
  have he : progress_percents
      (run_hook_stream false (body ++ [RawEvent.finished]))
      = raw_down_percents body ++ [100] := by
    unfold run_hook_stream
    rw [if_neg (by simp)]
    rw [List.flatMap_append]
    unfold progress_percents
    rw [List.filterMap_append]
    have h4 := progress_percents_no_finished body h3
    unfold progress_percents at h4
    rw [h4]
    rfl
  refine ⟨he, ?_⟩
  rw [he]
  rw [List.chain'_append]
  refine ⟨h1, List.chain'_singleton _, ?_⟩
  intro x hx y hy
  have hx' : x ∈ raw_down_percents body := by
    rcases List.mem_getLast?_eq_getLast hx with ⟨hne, hxl⟩
    rw [hxl]
    exact List.getLast_mem hne
  have hy' : (100 : ℚ) = y := by
    simpa using hy
  rw [← hy']
  exact h2 x hx'

/-- C5 amended, witness: a well-behaved raw stream (10%, 50%, then
finished) yields the emitted percents 10, 50, 100, which are
non-decreasing. -/
theorem C5_amended_witness :
    progress_percents (run_hook_stream false
        ([RawEvent.downloading (some 10) "s1",
          RawEvent.downloading (some 50) "s2"] ++ [RawEvent.finished]))
      = [(10 : ℚ), 50, 100]
    ∧ List.Chain' (fun x y => x ≤ y) ([(10 : ℚ), 50, 100]) := by
  have h := C5_amended_monotone_passthrough
    [RawEvent.downloading (some 10) "s1", RawEvent.downloading (some 50) "s2"]
    (by norm_num [raw_down_percents, raw_percent, List.filterMap_cons])
    (by norm_num [raw_down_percents, raw_percent, List.filterMap_cons])
    (by decide)
  refine ⟨?_, by norm_num⟩
  rw [h.1]
  rfl

end YTGUI
